import Mathlib

/-!
Verification of `entryclient/entrycli.py` (repository yuzhichang/entry).

The script builds a websocket endpoint URL and a header list from four
positional CLI arguments plus the `TERM` environment variable, hands them
to an external `EntryClient`, and catches every exception the client call
raises. We embed the script shallowly: Python `%s` string formatting
becomes `pyFormat`, `os.environ.get` becomes `environGet`, the external
client becomes an explicit behavior parameter returning `Except`, and the
observable effects of `enter` and `main` (constructed request, client
invocations, printed lines, logged exceptions, escaping exception, exit
code) are collected in records.
-/

namespace EntryCli

/-- Characters of Python `fmt % args` restricted to the `%s` conversion,
which is the only conversion the source uses: each `%s` in the format is
replaced, left to right, by the next argument. -/
def pyFormatAux : List Char → List String → List Char
  | [], _ => []
  | '%' :: 's' :: rest, a :: args => a.data ++ pyFormatAux rest args
  | c :: rest, args => c :: pyFormatAux rest args

/-- Python `fmt % (a, b, ...)` for `%s`-only format strings. -/
def pyFormat (fmt : String) (args : List String) : String :=
  ⟨pyFormatAux fmt.data args⟩

/-- Python `os.environ.get(key, default)`: the process environment is a
partial map from variable names to values, and `get` falls back to the
default only when the key is absent (an empty-string value is returned
as is). -/
def environGet (environ : String → Option String) (key dflt : String) : String :=
  (environ key).getD dflt

/-- Behavior of the external `EntryClient` (its source is outside this
repository): constructing the client and calling `invoke_shell` are each
given the endpoint and header list and either succeed or raise an
exception, modelled as `Except` with the exception rendered as a string. -/
structure ClientBehavior where
  construct : String → List String → Except String Unit
  invoke_shell : String → List String → Except String Unit

/-- The body of the `try` block in `enter`: `EntryClient(endpoint,
header_data)` followed by `client.invoke_shell()`; the first raised
exception aborts the block. -/
def tryBody (cb : ClientBehavior) (endpoint : String) (header_data : List String) :
    Except String Unit := do
  cb.construct endpoint header_data
  cb.invoke_shell endpoint header_data

/-- Observable outcome of one call to `enter`: the endpoint URL and header
list it constructed, the client invocations it attempted (endpoint and
header list of each), the lines it printed, the exceptions it logged, and
the exception escaping from it, if any. -/
structure EnterOutcome where
  endpoint : String
  header_data : List String
  invoked : List (String × List String)
  printed : List String
  logged : List String
  raised : Option String
deriving Repr, DecidableEq

/-- The `enter` function of `entrycli.py`: reads `TERM` (defaulting to
`xterm`), formats the endpoint URL and the three headers, runs the client
inside `try`, and on any exception logs it and prints the admin message
instead of re-raising. -/
def enter (cb : ClientBehavior) (environ : String → Option String)
    (ng_ip ng_port dockerd_ip container_id : String) : EnterOutcome :=
  let term_type := environGet environ "TERM" "xterm"
  let endpoint := pyFormat "ws://%s:%s/enter" [ng_ip, ng_port]
  let header_data := [pyFormat "dockerd_ip: %s" [dockerd_ip],
    pyFormat "container_id: %s" [container_id],
    pyFormat "term-type: %s" [term_type]]
  match tryBody cb endpoint header_data with
  | Except.ok _ =>
      { endpoint := endpoint, header_data := header_data,
        invoked := [(endpoint, header_data)],
        printed := [], logged := [], raised := none }
  | Except.error e =>
      { endpoint := endpoint, header_data := header_data,
        invoked := [(endpoint, header_data)],
        printed := ["Server stops the connection. Ask admin for help."],
        logged := [e], raised := none }

/-- Result of `main`: either `parser.error` fired (usage error, process
exits with status 2 before `enter` runs) or `enter` ran to completion. -/
inductive MainResult where
  | usageError : String → MainResult
  | ran : EnterOutcome → MainResult
deriving Repr, DecidableEq

/-- The `main` function of `entrycli.py`: after option parsing it checks
`len(args) != 4`, calling `parser.error` on mismatch, and otherwise passes
`args[0] .. args[3]` to `enter`. -/
def main (cb : ClientBehavior) (environ : String → Option String)
    (args : List String) : MainResult :=
  if args.length ≠ 4 then MainResult.usageError "args length shall be 4!"
  else MainResult.ran
    (enter cb environ (args.getD 0 "") (args.getD 1 "") (args.getD 2 "") (args.getD 3 ""))

/-- Process exit status of a `main` run: `parser.error` exits with
status 2; otherwise `main` returns normally and the process exits 0. -/
def mainExitCode (cb : ClientBehavior) (environ : String → Option String)
    (args : List String) : Nat :=
  match main cb environ args with
  | MainResult.usageError _ => 2
  | MainResult.ran _ => 0

/-- Client invocations attempted over a whole `main` run: none on the
usage-error path, those of `enter` otherwise. -/
def mainInvoked (cb : ClientBehavior) (environ : String → Option String)
    (args : List String) : List (String × List String) :=
  match main cb environ args with
  | MainResult.usageError _ => []
  | MainResult.ran o => o.invoked

/-- A client whose construction and shell invocation both succeed. -/
def okClient : ClientBehavior :=
  { construct := fun _ _ => Except.ok (),
    invoke_shell := fun _ _ => Except.ok () }

/-- A client whose construction raises. -/
def failClient : ClientBehavior :=
  { construct := fun _ _ => Except.error "ConnectionRefusedError",
    invoke_shell := fun _ _ => Except.ok () }

/-- An environment with no variables set. -/
def emptyEnv : String → Option String := fun _ => none

/-- An environment consisting of the single variable `TERM`. -/
def termEnv (v : String) : String → Option String :=
  fun k => if k = "TERM" then some v else none

/-- An environment that sets `TERM` together with unrelated variables. -/
def noisyEnv (v : String) : String → Option String :=
  fun k => if k = "TERM" then some v else some "unrelated"

end EntryCli

namespace EntryCli

/-! ### Helper lemmas about the concrete format strings -/

theorem pyFormat_ws (a b : String) :
    pyFormat "ws://%s:%s/enter" [a, b] = "ws://" ++ a ++ ":" ++ b ++ "/enter" := by
  apply String.ext
  simp only [String.data_append, List.append_assoc]
  rfl

theorem pyFormat_dockerd (x : String) :
    pyFormat "dockerd_ip: %s" [x] = "dockerd_ip: " ++ x := by
  apply String.ext
  show "dockerd_ip: ".data ++ (x.data ++ []) = _
  simp [String.data_append]

theorem pyFormat_container (x : String) :
    pyFormat "container_id: %s" [x] = "container_id: " ++ x := by
  apply String.ext
  show "container_id: ".data ++ (x.data ++ []) = _
  simp [String.data_append]

theorem pyFormat_term (x : String) :
    pyFormat "term-type: %s" [x] = "term-type: " ++ x := by
  apply String.ext
  show "term-type: ".data ++ (x.data ++ []) = _
  simp [String.data_append]

/-! ### Projection lemmas for `enter` -/

theorem enter_endpoint_def (cb : ClientBehavior) (environ : String → Option String)
    (a b c d : String) :
    (enter cb environ a b c d).endpoint = pyFormat "ws://%s:%s/enter" [a, b] := by
  simp only [enter]
  split <;> rfl

theorem enter_header_def (cb : ClientBehavior) (environ : String → Option String)
    (a b c d : String) :
    (enter cb environ a b c d).header_data =
      [pyFormat "dockerd_ip: %s" [c], pyFormat "container_id: %s" [d],
       pyFormat "term-type: %s" [environGet environ "TERM" "xterm"]] := by
  simp only [enter]
  split <;> rfl

theorem enter_invoked_def (cb : ClientBehavior) (environ : String → Option String)
    (a b c d : String) :
    (enter cb environ a b c d).invoked =
      [(pyFormat "ws://%s:%s/enter" [a, b],
        [pyFormat "dockerd_ip: %s" [c], pyFormat "container_id: %s" [d],
         pyFormat "term-type: %s" [environGet environ "TERM" "xterm"]])] := by
  simp only [enter]
  split <;> rfl

theorem enter_raised_def (cb : ClientBehavior) (environ : String → Option String)
    (a b c d : String) :
    (enter cb environ a b c d).raised = none := by
  simp only [enter]
  split <;> rfl

theorem enter_error_effects (cb : ClientBehavior) (environ : String → Option String)
    (a b c d e : String)
    (h : tryBody cb (pyFormat "ws://%s:%s/enter" [a, b])
        [pyFormat "dockerd_ip: %s" [c], pyFormat "container_id: %s" [d],
         pyFormat "term-type: %s" [environGet environ "TERM" "xterm"]] = Except.error e) :
    (enter cb environ a b c d).printed =
      ["Server stops the connection. Ask admin for help."] ∧
    (enter cb environ a b c d).logged = [e] := by
  simp only [enter]
  rw [h]
  exact ⟨rfl, rfl⟩

end EntryCli

namespace EntryCli

/-! ### Claims -/

/-- C1: for every four string arguments (and any client behavior and any
environment), the endpoint URL constructed by `enter` equals
`"ws://" ++ ng_ip ++ ":" ++ ng_port ++ "/enter"`. -/
theorem enter_endpoint_correct (cb : ClientBehavior) (environ : String → Option String)
    (ng_ip ng_port dockerd_ip container_id : String) :
    (enter cb environ ng_ip ng_port dockerd_ip container_id).endpoint =
      "ws://" ++ ng_ip ++ ":" ++ ng_port ++ "/enter" := by
  rw [enter_endpoint_def, pyFormat_ws]

/-- C2: for every four string arguments and the terminal type resolved from
the environment (`environGet environ "TERM" "xterm"`), the header list
constructed by `enter` is exactly the three-element list
`["dockerd_ip: " ++ dockerd_ip, "container_id: " ++ container_id,
"term-type: " ++ t]`, in that order. -/
theorem enter_header_data_correct (cb : ClientBehavior) (environ : String → Option String)
    (ng_ip ng_port dockerd_ip container_id : String) :
    (enter cb environ ng_ip ng_port dockerd_ip container_id).header_data =
      ["dockerd_ip: " ++ dockerd_ip, "container_id: " ++ container_id,
       "term-type: " ++ environGet environ "TERM" "xterm"] := by
  rw [enter_header_def, pyFormat_dockerd, pyFormat_container, pyFormat_term]

/-- C3: for every four arguments, every exception raised by the client call
(`EntryClient` construction followed by `invoke_shell`, i.e. `tryBody`) is
caught inside `enter` and does not propagate (`raised = none`); when an
exception `e` is raised, it is logged and the generic admin-contact message
is printed. -/
theorem enter_catches_all_exceptions (cb : ClientBehavior)
    (environ : String → Option String) (a b c d : String) :
    (enter cb environ a b c d).raised = none ∧
    ∀ e : String,
      tryBody cb (pyFormat "ws://%s:%s/enter" [a, b])
          [pyFormat "dockerd_ip: %s" [c], pyFormat "container_id: %s" [d],
           pyFormat "term-type: %s" [environGet environ "TERM" "xterm"]] = Except.error e →
        (enter cb environ a b c d).printed =
          ["Server stops the connection. Ask admin for help."] ∧
        (enter cb environ a b c d).logged = [e] :=
  ⟨enter_raised_def cb environ a b c d,
   fun e h => enter_error_effects cb environ a b c d e h⟩

/-- Witness for C3 at a concrete failing client and concrete arguments. -/
theorem enter_catches_all_exceptions_witness :
    (enter failClient emptyEnv "10.0.0.1" "8080" "172.17.0.2" "abc123").raised = none ∧
    (enter failClient emptyEnv "10.0.0.1" "8080" "172.17.0.2" "abc123").printed =
      ["Server stops the connection. Ask admin for help."] ∧
    (enter failClient emptyEnv "10.0.0.1" "8080" "172.17.0.2" "abc123").logged =
      ["ConnectionRefusedError"] := by
  have h := enter_catches_all_exceptions failClient emptyEnv "10.0.0.1" "8080" "172.17.0.2" "abc123"
  have h2 := h.2 "ConnectionRefusedError" rfl
  exact ⟨h.1, h2.1, h2.2⟩

/-- C4: for every argument list whose length differs from 4, `main` fails
with the usage error `args length shall be 4!` and a non-zero exit status,
and no client invocation (no `EntryClient` construction) is attempted. -/
theorem main_arg_count_usage_error (cb : ClientBehavior)
    (environ : String → Option String) (args : List String)
    (h : args.length ≠ 4) :
    main cb environ args = MainResult.usageError "args length shall be 4!" ∧
    mainExitCode cb environ args ≠ 0 ∧
    mainInvoked cb environ args = [] := by
  have hm : main cb environ args = MainResult.usageError "args length shall be 4!" := by
    simp [main, h]
  refine ⟨hm, ?_, ?_⟩
  · simp [mainExitCode, hm]
  · simp [mainInvoked, hm]

/-- Witness for C4 at a concrete one-element argument list. -/
theorem main_arg_count_usage_error_witness :
    (["10.0.0.1"] : List String).length ≠ 4 ∧
    main okClient emptyEnv ["10.0.0.1"] = MainResult.usageError "args length shall be 4!" ∧
    mainExitCode okClient emptyEnv ["10.0.0.1"] ≠ 0 ∧
    mainInvoked okClient emptyEnv ["10.0.0.1"] = [] := by
  have h := main_arg_count_usage_error okClient emptyEnv ["10.0.0.1"] (by decide)
  exact ⟨by decide, h.1, h.2.1, h.2.2⟩

/-- C5: with `TERM` unset, the terminal type resolves to `xterm` and the
constructed header list includes `term-type: xterm`. -/
theorem term_unset_defaults_to_xterm (cb : ClientBehavior)
    (environ : String → Option String) (a b c d : String)
    (h : environ "TERM" = none) :
    environGet environ "TERM" "xterm" = "xterm" ∧
    "term-type: xterm" ∈ (enter cb environ a b c d).header_data := by
  have ht : environGet environ "TERM" "xterm" = "xterm" := by simp [environGet, h]
  refine ⟨ht, ?_⟩
  rw [enter_header_def, pyFormat_term, ht]
  have hx : ("term-type: " ++ "xterm" : String) = "term-type: xterm" := rfl
  rw [hx]
  exact List.mem_cons_of_mem _ (List.mem_cons_of_mem _ (List.mem_cons_self _ _))

/-- Witness for C5 at the empty environment and concrete arguments. -/
theorem term_unset_defaults_to_xterm_witness :
    environGet emptyEnv "TERM" "xterm" = "xterm" ∧
    "term-type: xterm" ∈
      (enter okClient emptyEnv "10.0.0.1" "8080" "172.17.0.2" "abc123").header_data :=
  term_unset_defaults_to_xterm okClient emptyEnv "10.0.0.1" "8080" "172.17.0.2" "abc123" rfl

/-- C6: with `TERM` set to any value `v`, the constructed header list
includes `"term-type: " ++ v`. -/
theorem term_set_value_reflected (cb : ClientBehavior)
    (environ : String → Option String) (a b c d v : String)
    (h : environ "TERM" = some v) :
    ("term-type: " ++ v) ∈ (enter cb environ a b c d).header_data := by
  have ht : environGet environ "TERM" "xterm" = v := by simp [environGet, h]
  rw [enter_header_def, pyFormat_term, ht]
  exact List.mem_cons_of_mem _ (List.mem_cons_of_mem _ (List.mem_cons_self _ _))

/-- Witness for C6 with `TERM=screen` and concrete arguments. -/
theorem term_set_value_reflected_witness :
    ("term-type: " ++ "screen") ∈
      (enter okClient (termEnv "screen") "10.0.0.1" "8080" "172.17.0.2" "abc123").header_data :=
  term_set_value_reflected okClient (termEnv "screen")
    "10.0.0.1" "8080" "172.17.0.2" "abc123" "screen" rfl

/-- C7: when a session error occurs (the client call raises an exception,
which `enter` catches), the process terminates normally with exit code 0,
after printing the admin-contact message. -/
theorem session_error_exits_zero (cb : ClientBehavior)
    (environ : String → Option String) (a b c d e : String)
    (h : tryBody cb (pyFormat "ws://%s:%s/enter" [a, b])
        [pyFormat "dockerd_ip: %s" [c], pyFormat "container_id: %s" [d],
         pyFormat "term-type: %s" [environGet environ "TERM" "xterm"]] = Except.error e) :
    mainExitCode cb environ [a, b, c, d] = 0 ∧
    (enter cb environ a b c d).printed =
      ["Server stops the connection. Ask admin for help."] := by
  constructor
  · simp [mainExitCode, main]
  · exact (enter_error_effects cb environ a b c d e h).1

/-- Witness for C7 at a concrete failing client and concrete arguments. -/
theorem session_error_exits_zero_witness :
    mainExitCode failClient emptyEnv ["10.0.0.1", "8080", "172.17.0.2", "abc123"] = 0 ∧
    (enter failClient emptyEnv "10.0.0.1" "8080" "172.17.0.2" "abc123").printed =
      ["Server stops the connection. Ask admin for help."] :=
  session_error_exits_zero failClient emptyEnv
    "10.0.0.1" "8080" "172.17.0.2" "abc123" "ConnectionRefusedError" rfl

/-- C8: for every four string arguments, whatever their content, `enter`
performs no validation: it invokes the client exactly once, at the endpoint
and header list built verbatim from the given strings, and with four
arguments `main` always reaches `enter` (the argument count in `main` being
the only check anywhere). -/
theorem enter_no_validation (cb : ClientBehavior)
    (environ : String → Option String) (a b c d : String) :
    (enter cb environ a b c d).invoked =
      [("ws://" ++ a ++ ":" ++ b ++ "/enter",
        ["dockerd_ip: " ++ c, "container_id: " ++ d,
         "term-type: " ++ environGet environ "TERM" "xterm"])] ∧
    main cb environ [a, b, c, d] = MainResult.ran (enter cb environ a b c d) := by
  constructor
  · rw [enter_invoked_def, pyFormat_ws, pyFormat_dockerd, pyFormat_container, pyFormat_term]
  · simp [main, List.getD]

/-- C9: the `xterm` fallback applies only when `TERM` is absent: when
`TERM` is set to the empty string, the header list contains `"term-type: "`
(empty terminal type) and does not contain `"term-type: xterm"`. -/
theorem term_empty_no_fallback (cb : ClientBehavior)
    (environ : String → Option String) (a b c d : String)
    (h : environ "TERM" = some "") :
    (enter cb environ a b c d).header_data =
      ["dockerd_ip: " ++ c, "container_id: " ++ d, "term-type: "] ∧
    "term-type: " ∈ (enter cb environ a b c d).header_data ∧
    "term-type: xterm" ∉ (enter cb environ a b c d).header_data := by
  have ht : environGet environ "TERM" "xterm" = "" := by simp [environGet, h]
  have hd : (enter cb environ a b c d).header_data =
      ["dockerd_ip: " ++ c, "container_id: " ++ d, "term-type: "] := by
    rw [enter_header_def, pyFormat_dockerd, pyFormat_container, pyFormat_term, ht]
    rfl
  refine ⟨hd, ?_, ?_⟩
  · rw [hd]
    exact List.mem_cons_of_mem _ (List.mem_cons_of_mem _ (List.mem_cons_self _ _))
  · rw [hd]
    intro hmem
    simp only [List.mem_cons, List.not_mem_nil, or_false] at hmem
    rcases hmem with h1 | h2 | h3
    · have hh := congrArg (fun s => s.data.head?) h1
      have hc : (some 't' : Option Char) = some 'd' := hh
      exact absurd hc (by decide)
    · have hh := congrArg (fun s => s.data.head?) h2
      have hc : (some 't' : Option Char) = some 'c' := hh
      exact absurd hc (by decide)
    · exact absurd h3 (by decide)

/-- Witness for C9 with `TERM` set to the empty string. -/
theorem term_empty_no_fallback_witness :
    (enter okClient (termEnv "") "10.0.0.1" "8080" "172.17.0.2" "abc123").header_data =
      ["dockerd_ip: " ++ "172.17.0.2", "container_id: " ++ "abc123", "term-type: "] ∧
    "term-type: " ∈
      (enter okClient (termEnv "") "10.0.0.1" "8080" "172.17.0.2" "abc123").header_data ∧
    "term-type: xterm" ∉
      (enter okClient (termEnv "") "10.0.0.1" "8080" "172.17.0.2" "abc123").header_data :=
  term_empty_no_fallback okClient (termEnv "") "10.0.0.1" "8080" "172.17.0.2" "abc123" rfl

/-- C10: `enter` is deterministic in its observable inputs: two runs with
the same four arguments and the same `TERM` value (or both unset) construct
the same endpoint URL and header list, whatever the client behaviors and
the rest of the two environments. -/
theorem enter_deterministic (cb1 cb2 : ClientBehavior)
    (env1 env2 : String → Option String) (a b c d : String)
    (h : env1 "TERM" = env2 "TERM") :
    (enter cb1 env1 a b c d).endpoint = (enter cb2 env2 a b c d).endpoint ∧
    (enter cb1 env1 a b c d).header_data = (enter cb2 env2 a b c d).header_data := by
  constructor
  · rw [enter_endpoint_def, enter_endpoint_def]
  · rw [enter_header_def, enter_header_def]
    simp [environGet, h]

/-- Witness for C10: two environments agreeing on `TERM` but differing on
every other variable, and two different client behaviors. -/
theorem enter_deterministic_witness :
    termEnv "vt100" "TERM" = noisyEnv "vt100" "TERM" ∧
    (enter okClient (termEnv "vt100") "10.0.0.1" "8080" "172.17.0.2" "abc123").endpoint =
      (enter failClient (noisyEnv "vt100") "10.0.0.1" "8080" "172.17.0.2" "abc123").endpoint ∧
    (enter okClient (termEnv "vt100") "10.0.0.1" "8080" "172.17.0.2" "abc123").header_data =
      (enter failClient (noisyEnv "vt100") "10.0.0.1" "8080" "172.17.0.2" "abc123").header_data := by
  have h := enter_deterministic okClient failClient (termEnv "vt100") (noisyEnv "vt100")
    "10.0.0.1" "8080" "172.17.0.2" "abc123" rfl
  exact ⟨rfl, h.1, h.2⟩

end EntryCli
